import Mathlib

/-!
Shallow embedding of the `aws_route` reconciler
(`aws/resource_aws_route.go`) and proofs about its behaviour.

Remote calls are modelled by passing their results in explicitly:
a describe call becomes the response value, a mutating call becomes a
function from attempt index to that attempt's result. Go `*string`
fields become `Option String` (with `none` for a nil pointer), and Go
errors become an explicit error type.
-/

/-- Models a Go `error` value returned by the remote API: either an AWS
error with a code (matched by `isAWSErr`) or any other error. -/
inductive RemoteError
| aws (code : String)
| other (msg : String)
deriving DecidableEq

/-- Models `isAWSErr(err, code, "")`: true iff the error is non-nil, is
an AWS error, and its code equals `code`. -/
def isAWSErr : Option RemoteError → String → Bool
| some (RemoteError.aws c), code => c == code
| _, _ => false

/-- Models `ec2.Route`: a remote route record, all fields `*string`. -/
structure EC2Route where
  DestinationCidrBlock : Option String := none
  DestinationIpv6CidrBlock : Option String := none
  DestinationPrefixListId : Option String := none
  GatewayId : Option String := none
  EgressOnlyInternetGatewayId : Option String := none
  NatGatewayId : Option String := none
  LocalGatewayId : Option String := none
  InstanceId : Option String := none
  InstanceOwnerId : Option String := none
  NetworkInterfaceId : Option String := none
  Origin : Option String := none
  State : Option String := none
  TransitGatewayId : Option String := none
  VpcPeeringConnectionId : Option String := none
deriving DecidableEq

/-- Models `ec2.RouteTable` (the part used here): its route list. -/
structure RouteTable where
  Routes : List EC2Route := []
deriving DecidableEq

/-- Models the `schema.ResourceData` fields of the `aws_route` schema,
plus the resource id (`d.Id()`). Empty string models an unset field. -/
structure ResourceData where
  id : String := ""
  route_table_id : String := ""
  destination_cidr_block : String := ""
  destination_ipv6_cidr_block : String := ""
  destination_prefix_list_id : String := ""
  gateway_id : String := ""
  egress_only_gateway_id : String := ""
  nat_gateway_id : String := ""
  local_gateway_id : String := ""
  instance_id : String := ""
  instance_owner_id : String := ""
  network_interface_id : String := ""
  origin : String := ""
  state : String := ""
  transit_gateway_id : String := ""
  vpc_peering_connection_id : String := ""
deriving DecidableEq

/-- Models `d.Get(name).(string)` for the target fields. -/
def getField (d : ResourceData) (name : String) : String :=
  if name = "gateway_id" then d.gateway_id
  else if name = "egress_only_gateway_id" then d.egress_only_gateway_id
  else if name = "nat_gateway_id" then d.nat_gateway_id
  else if name = "local_gateway_id" then d.local_gateway_id
  else if name = "instance_id" then d.instance_id
  else if name = "network_interface_id" then d.network_interface_id
  else if name = "transit_gateway_id" then d.transit_gateway_id
  else if name = "vpc_peering_connection_id" then d.vpc_peering_connection_id
  else ""

/-- Models the `if v, ok := d.GetOk(name); ok` pattern: the value is
present exactly when it is not the zero value (empty string). -/
def getOk (s : String) : Option String :=
  if s = "" then none else some s

/-- Models the result of `conn.DescribeRouteTables`: either an error or
the `RouteTables` slice (entries are pointers, hence `Option`). -/
abbrev DescribeResp : Type := Except RemoteError (List (Option RouteTable))

/-- Modelled from the spec: `cidrBlocksEqual` is defined outside this
source file, so its IPv6 comparison is modelled from the spec's words:
CIDR-block semantic equality that tolerates zero-padding/expansion
differences (e.g. `::1/128` vs `0:0:0:0:0:0:0:1/128`). The model parses
each string as `<ipv6-address>/<prefix-length>`, expands `::` and group
zero-padding to the canonical eight 16-bit groups, and compares the
parsed forms. This definition parses a single hex digit. -/
def parseHexDigit (c : Char) : Option Nat :=
  if '0' ≤ c ∧ c ≤ '9' then some (c.toNat - '0'.toNat)
  else if 'a' ≤ c ∧ c ≤ 'f' then some (c.toNat - 'a'.toNat + 10)
  else if 'A' ≤ c ∧ c ≤ 'F' then some (c.toNat - 'A'.toNat + 10)
  else none

/-- Splits a character list on a separator character. -/
def splitCharAux (sep : Char) : List Char → List Char → List (List Char)
| [], acc => [acc.reverse]
| c :: rest, acc =>
  if c = sep then acc.reverse :: splitCharAux sep rest []
  else splitCharAux sep rest (c :: acc)

/-- Splits a character list on every occurrence of a separator. -/
def splitChar (sep : Char) (l : List Char) : List (List Char) :=
  splitCharAux sep l []

/-- Splits a character list on each non-overlapping `::` occurrence. -/
def splitDoubleColonAux : List Char → List Char → List (List Char)
| [], acc => [acc.reverse]
| ':' :: ':' :: rest, acc => acc.reverse :: splitDoubleColonAux rest []
| c :: rest, acc => splitDoubleColonAux rest (c :: acc)

/-- Splits a character list on `::`. -/
def splitDoubleColon (l : List Char) : List (List Char) :=
  splitDoubleColonAux l []

/-- Modelled from the spec: one colon-separated group of an IPv6
address, 1 to 4 hex digits. -/
def parseHexGroup (g : List Char) : Option Nat :=
  if g.length = 0 ∨ 4 < g.length then none
  else g.foldl
    (fun acc c => acc.bind fun n => (parseHexDigit c).map fun d => n * 16 + d)
    (some 0)

/-- Modelled from the spec: parse a list of colon-separated groups. -/
def parseGroupList (gs : List (List Char)) : Option (List Nat) :=
  gs.foldr
    (fun g acc => (parseHexGroup g).bind fun n => acc.map fun l => n :: l)
    (some [])

/-- Modelled from the spec: parse an IPv6 address into its eight 16-bit
groups, expanding a single `::` with zero groups. -/
def parseIpv6 (s : String) : Option (List Nat) :=
  match splitDoubleColon s.data with
  | [whole] =>
    (parseGroupList (splitChar ':' whole)).bind fun gs =>
      if gs.length = 8 then some gs else none
  | [l, r] =>
    let lgs := if l = [] then some [] else parseGroupList (splitChar ':' l)
    let rgs := if r = [] then some [] else parseGroupList (splitChar ':' r)
    lgs.bind fun lg => rgs.bind fun rg =>
      if lg.length + rg.length < 8 then
        some (lg ++ List.replicate (8 - (lg.length + rg.length)) 0 ++ rg)
      else none
  | _ => none

/-- Parses a decimal number from a character list. -/
def parseDecimal (l : List Char) : Option Nat :=
  if l = [] then none
  else l.foldl
    (fun acc c => acc.bind fun n =>
      if '0' ≤ c ∧ c ≤ '9' then some (n * 10 + (c.toNat - '0'.toNat)) else none)
    (some 0)

/-- Modelled from the spec: parse `<ipv6>/<len>` with `len ≤ 128`. -/
def parseIpv6Cidr (s : String) : Option (List Nat × Nat) :=
  match splitChar '/' s.data with
  | [addr, len] =>
    (parseIpv6 (String.mk addr)).bind fun gs =>
      (parseDecimal len).bind fun n => if n ≤ 128 then some (gs, n) else none
  | _ => none

/-- Modelled from the spec: `cidrBlocksEqual` — semantic equality of two
IPv6 CIDR strings (equal parsed address groups and prefix length); false
when either side does not parse. -/
def cidrBlocksEqual (cidr1 cidr2 : String) : Bool :=
  match parseIpv6Cidr cidr1, parseIpv6Cidr cidr2 with
  | some a, some b => a == b
  | _, _ => false

/-- Models `resourceAwsRouteFindRoute(conn, rtbid, cidr, ipv6cidr)`.
The describe response is passed in as `resp`. Returns the matching
route, `none` when the table exists but no route matches (or the
response carries no table), and propagates any describe error. -/
def resourceAwsRouteFindRoute (resp : DescribeResp) (cidr ipv6cidr : String) :
    Except RemoteError (Option EC2Route) :=
  match resp with
  | Except.error e => Except.error e
  | Except.ok tables =>
    match tables with
    | [] => Except.ok none
    | none :: _ => Except.ok none
    | some t :: _ =>
      if cidr ≠ "" then
        Except.ok (t.Routes.find? fun route =>
          match route.DestinationCidrBlock with
          | some s => s == cidr
          | none => false)
      else if ipv6cidr ≠ "" then
        Except.ok (t.Routes.find? fun route =>
          cidrBlocksEqual (route.DestinationIpv6CidrBlock.getD "") ipv6cidr)
      else
        Except.ok none

/-- Models `resourceAwsRouteRead`: looks the route up by the recorded
destinations; a not-found table or an absent route clears the id and
succeeds; a found route overwrites every observed field. -/
def resourceAwsRouteRead (d : ResourceData) (resp : DescribeResp) :
    Except RemoteError ResourceData :=
  match resourceAwsRouteFindRoute resp d.destination_cidr_block d.destination_ipv6_cidr_block with
  | Except.error e =>
    if isAWSErr (some e) "InvalidRouteTableID.NotFound" then
      Except.ok { d with id := "" }
    else
      Except.error e
  | Except.ok none => Except.ok { d with id := "" }
  | Except.ok (some route) => Except.ok { d with
      destination_cidr_block := route.DestinationCidrBlock.getD ""
      destination_ipv6_cidr_block := route.DestinationIpv6CidrBlock.getD ""
      destination_prefix_list_id := route.DestinationPrefixListId.getD ""
      gateway_id := route.GatewayId.getD ""
      egress_only_gateway_id := route.EgressOnlyInternetGatewayId.getD ""
      nat_gateway_id := route.NatGatewayId.getD ""
      local_gateway_id := route.LocalGatewayId.getD ""
      instance_id := route.InstanceId.getD ""
      instance_owner_id := route.InstanceOwnerId.getD ""
      network_interface_id := route.NetworkInterfaceId.getD ""
      origin := route.Origin.getD ""
      state := route.State.getD ""
      transit_gateway_id := route.TransitGatewayId.getD ""
      vpc_peering_connection_id := route.VpcPeeringConnectionId.getD "" }

/-- UTF-8 encoding of a Unicode code point as byte values. -/
def utf8EncodeCharNat (c : Nat) : List Nat :=
  if c < 128 then [c]
  else if c < 2048 then [192 + c / 64, 128 + c % 64]
  else if c < 65536 then [224 + c / 4096, 128 + (c / 64) % 64, 128 + c % 64]
  else [240 + c / 262144, 128 + (c / 4096) % 64, 128 + (c / 64) % 64, 128 + c % 64]

/-- UTF-8 bytes of a string. -/
def utf8Bytes (s : String) : List Nat :=
  s.data.flatMap fun c => utf8EncodeCharNat c.toNat

/-- Modelled from the spec: `hashcode.String` lives in
`aws/internal/hashcode`, outside this source file, so it is modelled
from the spec's words as a fixed, documented 32-bit non-cryptographic
hash (FNV-1a) over the UTF-8 bytes of its argument — deterministic and
never randomized. -/
def hashcodeString (s : String) : Nat :=
  (utf8Bytes s).foldl (fun h b => ((h ^^^ b) * 16777619) % 4294967296) 2166136261

/-- Models `resourceAwsRouteID(d, r)`: prefers a non-nil, non-empty IPv6
destination, else unconditionally dereferences the IPv4 destination
pointer. A `none` result models the nil-pointer dereference (panic)
that the Go code performs when the IPv4 destination is nil. -/
def resourceAwsRouteID (route_table_id : String) (r : EC2Route) : Option String :=
  if r.DestinationIpv6CidrBlock.getD "" ≠ "" then
    some ("r-" ++ route_table_id ++ toString (hashcodeString (r.DestinationIpv6CidrBlock.getD "")))
  else
    r.DestinationCidrBlock.map fun s =>
      "r-" ++ route_table_id ++ toString (hashcodeString s)

/-- The two operations that run the target-selection logic. -/
inductive Op
| create
| update
deriving DecidableEq

/-- Models the `allowedTargets` slices of `resourceAwsRouteCreate` and
`resourceAwsRouteUpdate` (same names, different order: update lists
`network_interface_id` before `instance_id`). -/
def allowedTargets : Op → List String
| Op.create =>
  ["egress_only_gateway_id", "gateway_id", "nat_gateway_id", "local_gateway_id",
   "instance_id", "network_interface_id", "transit_gateway_id", "vpc_peering_connection_id"]
| Op.update =>
  ["egress_only_gateway_id", "gateway_id", "nat_gateway_id", "local_gateway_id",
   "network_interface_id", "instance_id", "transit_gateway_id", "vpc_peering_connection_id"]

/-- Models the counting loop of both operations: `numTargets` is the
count of non-empty target fields and `setTarget` the last one seen. -/
def targetScan (op : Op) (d : ResourceData) : Nat × String :=
  (allowedTargets op).foldl
    (fun acc target =>
      if 0 < (getField d target).length then (acc.1 + 1, target) else acc)
    (0, "")

/-- The `numTargets` counter of the Go counting loop. -/
def numTargets (op : Op) (d : ResourceData) : Nat := (targetScan op d).1

/-- The `setTarget` variable of the Go counting loop. -/
def setTarget (op : Op) (d : ResourceData) : String := (targetScan op d).2

/-- The validation errors the two operations can return before any
remote call. `routeTargetValidationError` models the package-level
error value of the same name ("Error: more than 1 target specified.
..."); `missingTarget` models create's default-branch error ("A valid
target type is missing. Specify one of the following attributes: ..."),
which joins the allowed target names into the message;
`invalidTargetType` models update's default-branch error ("An invalid
target type specified: %s"), whose message carries only `setTarget` and
names no target fields. -/
inductive TargetError
| routeTargetValidationError
| missingTarget (allowed : List String)
| invalidTargetType (target : String)
deriving DecidableEq

/-- Models the target-selection part of `resourceAwsRouteCreate`
(ambiguity check over `numTargets`, followed by the switch dispatch on
`setTarget`) and of `resourceAwsRouteUpdate` (the special-cased
`instance_id` ambiguity check reading `len(d.Get("network_interface_id"))`,
followed by the switch dispatch). The inputs `n`, `t` and `eniLen` are
the values the Go code reads: the count of non-empty target fields, the
last non-empty target field, and the length of the
`network_interface_id` field. -/
def selectTargetCore (op : Op) (n : Nat) (t : String) (eniLen : Nat) :
    Except TargetError String :=
  match op with
  | Op.create =>
    if 1 < n then Except.error TargetError.routeTargetValidationError
    else
      match t with
      | "gateway_id" => Except.ok "gateway_id"
      | "egress_only_gateway_id" => Except.ok "egress_only_gateway_id"
      | "nat_gateway_id" => Except.ok "nat_gateway_id"
      | "local_gateway_id" => Except.ok "local_gateway_id"
      | "instance_id" => Except.ok "instance_id"
      | "network_interface_id" => Except.ok "network_interface_id"
      | "transit_gateway_id" => Except.ok "transit_gateway_id"
      | "vpc_peering_connection_id" => Except.ok "vpc_peering_connection_id"
      | _ => Except.error (TargetError.missingTarget (allowedTargets Op.create))
  | Op.update =>
    let guarded : Except TargetError Unit :=
      match t with
      | "instance_id" =>
        if 2 < n ∨ (n = 2 ∧ eniLen = 0) then
          Except.error TargetError.routeTargetValidationError
        else Except.ok ()
      | _ =>
        if 1 < n then Except.error TargetError.routeTargetValidationError
        else Except.ok ()
    match guarded with
    | Except.error e => Except.error e
    | Except.ok _ =>
      match t with
      | "gateway_id" => Except.ok "gateway_id"
      | "egress_only_gateway_id" => Except.ok "egress_only_gateway_id"
      | "nat_gateway_id" => Except.ok "nat_gateway_id"
      | "local_gateway_id" => Except.ok "local_gateway_id"
      | "instance_id" => Except.ok "instance_id"
      | "network_interface_id" => Except.ok "network_interface_id"
      | "transit_gateway_id" => Except.ok "transit_gateway_id"
      | "vpc_peering_connection_id" => Except.ok "vpc_peering_connection_id"
      | _ => Except.error (TargetError.invalidTargetType t)

/-- Models the target selection of the given operation on the given
record: `selectTargetCore` applied to the operation's counting-loop
results and the `network_interface_id` field length. -/
def selectTarget (op : Op) (d : ResourceData) : Except TargetError String :=
  selectTargetCore op (numTargets op d) (setTarget op d)
    (getField d "network_interface_id").length

/-- Models both `ec2.CreateRouteInput` and `ec2.ReplaceRouteInput`,
which carry exactly the same fields (`none` models an unset pointer). -/
structure RouteInput where
  RouteTableId : Option String := none
  DestinationCidrBlock : Option String := none
  DestinationIpv6CidrBlock : Option String := none
  GatewayId : Option String := none
  EgressOnlyInternetGatewayId : Option String := none
  NatGatewayId : Option String := none
  LocalGatewayId : Option String := none
  InstanceId : Option String := none
  NetworkInterfaceId : Option String := none
  TransitGatewayId : Option String := none
  VpcPeeringConnectionId : Option String := none
deriving DecidableEq

/-- Models the `createOpts` switch of `resourceAwsRouteCreate`: the
payload built for the given selected target. Conditional destination
fields use the `GetOk` pattern; `egress_only_gateway_id`,
`nat_gateway_id` and `local_gateway_id` set their destination
unconditionally via `d.Get`. The default arm models the zero-value
`&ec2.CreateRouteInput{}` initialization (never sent: the selector
errors first). -/
def createOptsFor (d : ResourceData) (target : String) : RouteInput :=
  match target with
  | "gateway_id" =>
    { RouteTableId := some d.route_table_id
      GatewayId := some d.gateway_id
      DestinationCidrBlock := getOk d.destination_cidr_block
      DestinationIpv6CidrBlock := getOk d.destination_ipv6_cidr_block }
  | "egress_only_gateway_id" =>
    { RouteTableId := some d.route_table_id
      DestinationIpv6CidrBlock := some d.destination_ipv6_cidr_block
      EgressOnlyInternetGatewayId := some d.egress_only_gateway_id }
  | "nat_gateway_id" =>
    { RouteTableId := some d.route_table_id
      DestinationCidrBlock := some d.destination_cidr_block
      NatGatewayId := some d.nat_gateway_id }
  | "local_gateway_id" =>
    { RouteTableId := some d.route_table_id
      DestinationCidrBlock := some d.destination_cidr_block
      LocalGatewayId := some d.local_gateway_id }
  | "instance_id" =>
    { RouteTableId := some d.route_table_id
      InstanceId := some d.instance_id
      DestinationCidrBlock := getOk d.destination_cidr_block
      DestinationIpv6CidrBlock := getOk d.destination_ipv6_cidr_block }
  | "network_interface_id" =>
    { RouteTableId := some d.route_table_id
      NetworkInterfaceId := some d.network_interface_id
      DestinationCidrBlock := getOk d.destination_cidr_block
      DestinationIpv6CidrBlock := getOk d.destination_ipv6_cidr_block }
  | "transit_gateway_id" =>
    { RouteTableId := some d.route_table_id
      TransitGatewayId := some d.transit_gateway_id
      DestinationCidrBlock := getOk d.destination_cidr_block
      DestinationIpv6CidrBlock := getOk d.destination_ipv6_cidr_block }
  | "vpc_peering_connection_id" =>
    { RouteTableId := some d.route_table_id
      VpcPeeringConnectionId := some d.vpc_peering_connection_id
      DestinationCidrBlock := getOk d.destination_cidr_block
      DestinationIpv6CidrBlock := getOk d.destination_ipv6_cidr_block }
  | _ => {}

/-- Models the `replaceOpts` switch of `resourceAwsRouteUpdate`: every
arm except `egress_only_gateway_id` sets `DestinationCidrBlock`
unconditionally via `d.Get` and never sets the IPv6 destination;
`egress_only_gateway_id` sets the IPv6 destination unconditionally. -/
def replaceOptsFor (d : ResourceData) (target : String) : RouteInput :=
  match target with
  | "gateway_id" =>
    { RouteTableId := some d.route_table_id
      DestinationCidrBlock := some d.destination_cidr_block
      GatewayId := some d.gateway_id }
  | "egress_only_gateway_id" =>
    { RouteTableId := some d.route_table_id
      DestinationIpv6CidrBlock := some d.destination_ipv6_cidr_block
      EgressOnlyInternetGatewayId := some d.egress_only_gateway_id }
  | "nat_gateway_id" =>
    { RouteTableId := some d.route_table_id
      DestinationCidrBlock := some d.destination_cidr_block
      NatGatewayId := some d.nat_gateway_id }
  | "local_gateway_id" =>
    { RouteTableId := some d.route_table_id
      DestinationCidrBlock := some d.destination_cidr_block
      LocalGatewayId := some d.local_gateway_id }
  | "instance_id" =>
    { RouteTableId := some d.route_table_id
      DestinationCidrBlock := some d.destination_cidr_block
      InstanceId := some d.instance_id }
  | "network_interface_id" =>
    { RouteTableId := some d.route_table_id
      DestinationCidrBlock := some d.destination_cidr_block
      NetworkInterfaceId := some d.network_interface_id }
  | "transit_gateway_id" =>
    { RouteTableId := some d.route_table_id
      DestinationCidrBlock := some d.destination_cidr_block
      TransitGatewayId := some d.transit_gateway_id }
  | "vpc_peering_connection_id" =>
    { RouteTableId := some d.route_table_id
      DestinationCidrBlock := some d.destination_cidr_block
      VpcPeeringConnectionId := some d.vpc_peering_connection_id }
  | _ => {}

/-- Models `resourceAwsRouteUpdate`: target selection, then exactly one
`conn.ReplaceRoute(replaceOpts)` call whose error (or nil) is returned
verbatim. `replaceRoute` is the remote call, passed in as a function
from the payload to the call's result. -/
def resourceAwsRouteUpdate (d : ResourceData)
    (replaceRoute : RouteInput → Option RemoteError) :
    Except TargetError (Option RemoteError) :=
  match selectTarget Op.update d with
  | Except.error e => Except.error e
  | Except.ok t => Except.ok (replaceRoute (replaceOptsFor d t))

/-- Models one attempt's classified outcome inside `resource.Retry`:
the closure returns nil (success), `resource.RetryableError(err)`, or
`resource.NonRetryableError(err)`. -/
inductive Att (ε : Type) (α : Type)
| ok (a : α)
| retryable (e : ε)
| fatal (e : ε)
deriving DecidableEq

/-- Models the result of `resource.Retry`: nil, the non-retryable
error, or a `*resource.TimeoutError` wrapping the last retryable
error (detected afterwards by `isResourceTimeoutError`). -/
inductive RetryRes (ε : Type) (α : Type)
| ok (a : α)
| fatal (e : ε)
| timeout (last : Option ε)
deriving DecidableEq

/-- The retry loop: `fuel` attempts remain within the wall-clock
budget, `i` is the next attempt index, `last` the last retryable error
seen. Returns the loop result and the next attempt index (equal to the
number of attempts performed when started at index 0). -/
def resourceRetryGo (step : Nat → Att ε α) : Nat → Nat → Option ε → RetryRes ε α × Nat
| 0, i, last => (RetryRes.timeout last, i)
| fuel + 1, i, _last =>
  match step i with
  | Att.ok a => (RetryRes.ok a, i + 1)
  | Att.fatal e => (RetryRes.fatal e, i + 1)
  | Att.retryable e => resourceRetryGo step fuel (i + 1) (some e)

/-- Models `resource.Retry(timeout, step)` with the wall-clock budget
abstracted as the number of attempts (`budget`) it admits before the
timeout elapses. -/
def resourceRetry (step : Nat → Att ε α) (budget : Nat) : RetryRes ε α × Nat :=
  resourceRetryGo step budget 0 none

/-- Models the two-phase retry-then-final-attempt pattern shared by the
create call, each create confirmation lookup, and the delete call:
`resource.Retry(...)` followed, only under `isResourceTimeoutError`, by
exactly one direct call whose raw result replaces the loop's error.
Returns the surfaced value (loop result, or the final raw call result
after a timeout) and the total number of calls performed. -/
def retryWithFinal (call : Nat → β) (classify : β → Att ε α) (budget : Nat) :
    (RetryRes ε α ⊕ β) × Nat :=
  let r := resourceRetry (fun i => classify (call i)) budget
  match r.1 with
  | RetryRes.timeout _ => (Sum.inr (call r.2), r.2 + 1)
  | res => (Sum.inl res, r.2)

/-- Models the retry closure of the create call in
`resourceAwsRouteCreate`: "InvalidParameterException" and
"InvalidTransitGatewayID.NotFound" are retryable, any other error is
non-retryable, nil is success. -/
def createClassify : Option RemoteError → Att RemoteError Unit
| none => Att.ok ()
| some err =>
  if isAWSErr (some err) "InvalidParameterException" then Att.retryable err
  else if isAWSErr (some err) "InvalidTransitGatewayID.NotFound" then Att.retryable err
  else Att.fatal err

/-- Models the create-call phase of `resourceAwsRouteCreate` (lines
277–299): the retried `conn.CreateRoute`, the single direct call under
`isResourceTimeoutError`, and the final error check (the Go code wraps
the surfaced error as "Error creating route: %s"; the wrapping text is
dropped here). `createRoute` gives each attempt's raw result. -/
def resourceAwsRouteCreateCall (budget : Nat)
    (createRoute : Nat → Option RemoteError) : Except RemoteError Unit :=
  let retried := resourceRetry (fun i => createClassify (createRoute i)) budget
  let err : Option RemoteError :=
    match retried.1 with
    | RetryRes.ok _ => none
    | RetryRes.fatal e => some e
    | RetryRes.timeout _ => createRoute retried.2
  match err with
  | none => Except.ok ()
  | some e => Except.error e

/-- Models the retry closure of a create confirmation lookup: a found
route is success, an absent route becomes the retryable error "Route
not found", and any lookup error is also returned as retryable. -/
def confirmClassify : Except RemoteError (Option EC2Route) → Att RemoteError EC2Route
| Except.ok (some route) => Att.ok route
| Except.ok none => Att.retryable (RemoteError.other "Route not found")
| Except.error e => Att.retryable e

/-- Models one confirmation-lookup phase of `resourceAwsRouteCreate`
(lines 303–325 for IPv4, 327–349 for IPv6): the retried
`resourceAwsRouteFindRoute`, the single direct lookup under
`isResourceTimeoutError`, then the error check and the nil-route check
("Unable to find matching route ..."). `lookup` gives each attempt's
lookup result. -/
def resourceAwsRouteConfirm (budget : Nat)
    (lookup : Nat → Except RemoteError (Option EC2Route)) :
    Except RemoteError EC2Route :=
  let retried := resourceRetry (fun i => confirmClassify (lookup i)) budget
  match retried.1 with
  | RetryRes.ok route => Except.ok route
  | RetryRes.fatal e => Except.error e
  | RetryRes.timeout _ =>
    match lookup retried.2 with
    | Except.error e => Except.error e
    | Except.ok none => Except.error (RemoteError.other "Unable to find matching route")
    | Except.ok (some route) => Except.ok route

/-- Models the retry closure of `resourceAwsRouteDelete`: nil and
"InvalidRoute.NotFound" are success, "InvalidParameterException" is
retryable, anything else is non-retryable. -/
def deleteClassify : Option RemoteError → Att RemoteError Unit
| none => Att.ok ()
| some err =>
  if isAWSErr (some err) "InvalidRoute.NotFound" then Att.ok ()
  else if isAWSErr (some err) "InvalidParameterException" then Att.retryable err
  else Att.fatal err

/-- Models `resourceAwsRouteDelete` (lines 509–536): the retried
`conn.DeleteRoute`, the single direct call under
`isResourceTimeoutError`, the idempotence check
(`isAWSErr(err, "InvalidRoute.NotFound")` is success), and the final
error check (Go wraps it as "Error deleting route: %s"; the wrapping
text is dropped here). `deleteRoute` gives each attempt's raw result. -/
def resourceAwsRouteDelete (budget : Nat)
    (deleteRoute : Nat → Option RemoteError) : Except RemoteError Unit :=
  let retried := resourceRetry (fun i => deleteClassify (deleteRoute i)) budget
  let err : Option RemoteError :=
    match retried.1 with
    | RetryRes.ok _ => none
    | RetryRes.fatal e => some e
    | RetryRes.timeout _ => deleteRoute retried.2
  if isAWSErr err "InvalidRoute.NotFound" then Except.ok ()
  else
    match err with
    | none => Except.ok ()
    | some e => Except.error e

/-- Decidable equality for `Except` results, used to evaluate the
model on concrete inputs. -/
instance {ε α : Type} [DecidableEq ε] [DecidableEq α] : DecidableEq (Except ε α) := fun x y =>
  match x, y with
  | Except.ok a, Except.ok b =>
    if h : a = b then isTrue (by rw [h]) else isFalse (fun hh => h (Except.ok.inj hh))
  | Except.error a, Except.error b =>
    if h : a = b then isTrue (by rw [h]) else isFalse (fun hh => h (Except.error.inj hh))
  | Except.ok _, Except.error _ => isFalse (fun hh => Except.noConfusion hh)
  | Except.error _, Except.ok _ => isFalse (fun hh => Except.noConfusion hh)

/-- The counting loop on a precomputed list of (field name, is-set)
pairs; mirrors `targetScan` with field emptiness reified as a Bool. -/
def scanPairs (l : List (String × Bool)) : Nat × String :=
  l.foldl (fun acc p => if p.2 then (acc.1 + 1, p.1) else acc) (0, "")

/-- The (field name, is-set) pairs of the given operation's allowed
target list for the given record. -/
def pairsOf (op : Op) (d : ResourceData) : List (String × Bool) :=
  (allowedTargets op).map fun t => (t, decide (0 < (getField d t).length))

/-- The create-operation pair list with the eight is-set flags taken
as parameters (in the create iteration order). -/
def lcOf (b1 b2 b3 b4 b5 b6 b7 b8 : Bool) : List (String × Bool) :=
  [("egress_only_gateway_id", b1), ("gateway_id", b2), ("nat_gateway_id", b3),
   ("local_gateway_id", b4), ("instance_id", b5), ("network_interface_id", b6),
   ("transit_gateway_id", b7), ("vpc_peering_connection_id", b8)]

/-- The update-operation pair list (update's iteration order puts
`network_interface_id` before `instance_id`). -/
def luOf (b1 b2 b3 b4 b5 b6 b7 b8 : Bool) : List (String × Bool) :=
  [("egress_only_gateway_id", b1), ("gateway_id", b2), ("nat_gateway_id", b3),
   ("local_gateway_id", b4), ("network_interface_id", b6), ("instance_id", b5),
   ("transit_gateway_id", b7), ("vpc_peering_connection_id", b8)]

/-- Looks up the is-set flag of a field name in a pair list. -/
def lookupPair (l : List (String × Bool)) (x : String) : Bool :=
  ((l.find? fun p => x == p.1).map Prod.snd).getD false

/-- The update exception as a flag computation: exactly `instance_id`
and `network_interface_id` are set. -/
def excBool (b1 b2 b3 b4 b5 b6 b7 b8 : Bool) : Bool :=
  b5 && b6 && !b1 && !b2 && !b3 && !b4 && !b7 && !b8

/-- The documented update exception of the spec: the only two non-empty
target fields are `instance_id` and `network_interface_id`. -/
def updateInstanceEniException (d : ResourceData) : Prop :=
  0 < d.instance_id.length ∧ 0 < d.network_interface_id.length ∧
  d.egress_only_gateway_id.length = 0 ∧ d.gateway_id.length = 0 ∧
  d.nat_gateway_id.length = 0 ∧ d.local_gateway_id.length = 0 ∧
  d.transit_gateway_id.length = 0 ∧ d.vpc_peering_connection_id.length = 0

/-! Helper lemmas. -/

/-- A fold of the FNV-1a step keeps the accumulator below `2^32`. -/
theorem fnv_fold_lt (l : List Nat) :
    ∀ h : Nat, h < 4294967296 →
      l.foldl (fun h b => ((h ^^^ b) * 16777619) % 4294967296) h < 4294967296 := by
  induction l with
  | nil => intro h hh; simpa using hh
  | cons b rest ih =>
    intro h _hh
    simpa using ih (((h ^^^ b) * 16777619) % 4294967296) (Nat.mod_lt _ (by norm_num))

/-- With both query destinations empty, the locator returns absent. -/
theorem find_empty_dests (tables : List (Option RouteTable)) :
    resourceAwsRouteFindRoute (Except.ok tables) "" "" = Except.ok none := by
  rcases tables with _ | ⟨_ | t, rest⟩ <;> simp [resourceAwsRouteFindRoute]

/-! Claim theorems. -/

/-- Claim C9: when the remote reports the route table itself as not
found, the Route Locator propagates the describe error unchanged, and
that outcome is distinct from the absent result, so a caller can tell a
missing table from a table lacking a matching route. -/
theorem findRoute_table_not_found (e : RemoteError) (cidr ipv6cidr : String) :
    resourceAwsRouteFindRoute (Except.error e) cidr ipv6cidr = Except.error e ∧
    resourceAwsRouteFindRoute (Except.error e) cidr ipv6cidr ≠ Except.ok none := by
  refine ⟨rfl, ?_⟩
  intro h
  rw [show resourceAwsRouteFindRoute (Except.error e) cidr ipv6cidr = Except.error e from rfl] at h
  exact Except.noConfusion h

/-- Claim C10: with both query destinations empty the Route Locator
returns absent with no error regardless of the table's routes, and a
Read whose recorded destinations are both empty clears the identity and
succeeds. -/
theorem findRoute_empty_query (tables : List (Option RouteTable)) (d : ResourceData) :
    resourceAwsRouteFindRoute (Except.ok tables) "" "" = Except.ok none ∧
    (d.destination_cidr_block = "" → d.destination_ipv6_cidr_block = "" →
      resourceAwsRouteRead d (Except.ok tables) = Except.ok { d with id := "" }) := by
  refine ⟨find_empty_dests tables, ?_⟩
  intro h4 h6
  unfold resourceAwsRouteRead
  rw [h4, h6, find_empty_dests tables]

/-- Claim C10 witness: a concrete table with a route, and a state with
both destinations empty. -/
theorem findRoute_empty_query_witness :
    resourceAwsRouteFindRoute
        (Except.ok [some { Routes := [{ DestinationCidrBlock := some "10.0.0.0/16" }] }]) "" ""
      = Except.ok none ∧
    resourceAwsRouteRead { id := "r-x", route_table_id := "rtb-1" }
        (Except.ok [some { Routes := [{ DestinationCidrBlock := some "10.0.0.0/16" }] }])
      = Except.ok { id := "", route_table_id := "rtb-1" } :=
  ⟨(findRoute_empty_query [some { Routes := [{ DestinationCidrBlock := some "10.0.0.0/16" }] }]
      { id := "r-x", route_table_id := "rtb-1" }).1,
   (findRoute_empty_query [some { Routes := [{ DestinationCidrBlock := some "10.0.0.0/16" }] }]
      { id := "r-x", route_table_id := "rtb-1" }).2 rfl rfl⟩

/-- Claim C5: Read clears the identity and succeeds when the table is
reported not found or when the locator finds no matching route, and
otherwise overwrites every observed field from the remote record. -/
theorem read_drift_clearing (d : ResourceData) (resp : DescribeResp) (route : EC2Route) :
    (resourceAwsRouteFindRoute resp d.destination_cidr_block d.destination_ipv6_cidr_block
        = Except.error (RemoteError.aws "InvalidRouteTableID.NotFound") →
      resourceAwsRouteRead d resp = Except.ok { d with id := "" }) ∧
    (resourceAwsRouteFindRoute resp d.destination_cidr_block d.destination_ipv6_cidr_block
        = Except.ok none →
      resourceAwsRouteRead d resp = Except.ok { d with id := "" }) ∧
    (resourceAwsRouteFindRoute resp d.destination_cidr_block d.destination_ipv6_cidr_block
        = Except.ok (some route) →
      resourceAwsRouteRead d resp = Except.ok { d with
        destination_cidr_block := route.DestinationCidrBlock.getD ""
        destination_ipv6_cidr_block := route.DestinationIpv6CidrBlock.getD ""
        destination_prefix_list_id := route.DestinationPrefixListId.getD ""
        gateway_id := route.GatewayId.getD ""
        egress_only_gateway_id := route.EgressOnlyInternetGatewayId.getD ""
        nat_gateway_id := route.NatGatewayId.getD ""
        local_gateway_id := route.LocalGatewayId.getD ""
        instance_id := route.InstanceId.getD ""
        instance_owner_id := route.InstanceOwnerId.getD ""
        network_interface_id := route.NetworkInterfaceId.getD ""
        origin := route.Origin.getD ""
        state := route.State.getD ""
        transit_gateway_id := route.TransitGatewayId.getD ""
        vpc_peering_connection_id := route.VpcPeeringConnectionId.getD "" }) := by
  refine ⟨?_, ?_, ?_⟩ <;>
    (intro h; unfold resourceAwsRouteRead; rw [h]; try simp [isAWSErr])

/-- Claim C5 witness: a not-found table clears the identity, and a
found route overwrites the observed fields. -/
theorem read_drift_clearing_witness :
    resourceAwsRouteRead { id := "r-x", route_table_id := "rtb-1" }
        (Except.error (RemoteError.aws "InvalidRouteTableID.NotFound"))
      = Except.ok { id := "", route_table_id := "rtb-1" } ∧
    resourceAwsRouteRead
        { id := "r-x", route_table_id := "rtb-1", destination_cidr_block := "10.0.0.0/16" }
        (Except.ok [some { Routes := [{ DestinationCidrBlock := some "10.0.0.0/16",
                                        GatewayId := some "igw-1",
                                        Origin := some "CreateRoute",
                                        State := some "active" }] }])
      = Except.ok { id := "r-x", route_table_id := "rtb-1",
                    destination_cidr_block := "10.0.0.0/16",
                    gateway_id := "igw-1", origin := "CreateRoute", state := "active" } :=
  ⟨(read_drift_clearing { id := "r-x", route_table_id := "rtb-1" }
      (Except.error (RemoteError.aws "InvalidRouteTableID.NotFound"))
      {}).1 rfl,
   (read_drift_clearing
      { id := "r-x", route_table_id := "rtb-1", destination_cidr_block := "10.0.0.0/16" }
      (Except.ok [some { Routes := [{ DestinationCidrBlock := some "10.0.0.0/16",
                                      GatewayId := some "igw-1",
                                      Origin := some "CreateRoute",
                                      State := some "active" }] }])
      { DestinationCidrBlock := some "10.0.0.0/16", GatewayId := some "igw-1",
        Origin := some "CreateRoute", State := some "active" }).2.2 rfl⟩

/-- Claim C3: for a table whose describe call succeeds, an IPv4 query
destination is matched by exact string equality, an IPv6 query
destination by CIDR-semantic equality tolerating zero-padding and
expansion differences, and a non-empty IPv4 query makes the IPv6 query
irrelevant (IPv4 takes precedence); the result is the first matching
route or absent. -/
theorem findRoute_matching (t : RouteTable) (rest : List (Option RouteTable))
    (cidr ipv6cidr : String) :
    (cidr ≠ "" →
      resourceAwsRouteFindRoute (Except.ok (some t :: rest)) cidr ipv6cidr
          = Except.ok (t.Routes.find? fun route =>
              match route.DestinationCidrBlock with
              | some s => s == cidr
              | none => false) ∧
      resourceAwsRouteFindRoute (Except.ok (some t :: rest)) cidr ipv6cidr
          = resourceAwsRouteFindRoute (Except.ok (some t :: rest)) cidr "") ∧
    (cidr = "" → ipv6cidr ≠ "" →
      resourceAwsRouteFindRoute (Except.ok (some t :: rest)) cidr ipv6cidr
          = Except.ok (t.Routes.find? fun route =>
              cidrBlocksEqual (route.DestinationIpv6CidrBlock.getD "") ipv6cidr)) ∧
    cidrBlocksEqual "2001:db8::1/128" "2001:0db8:0000:0000:0000:0000:0000:0001/128" = true ∧
    cidrBlocksEqual "::1/128" "0:0:0:0:0:0:0:1/128" = true ∧
    cidrBlocksEqual "2001:db8::1/128" "2001:db8::2/128" = false := by
  refine ⟨?_, ?_, by decide, by decide, by decide⟩
  · intro hc
    constructor <;> simp [resourceAwsRouteFindRoute, hc]
  · intro hc h6
    subst hc
    simp [resourceAwsRouteFindRoute, h6]

/-- Claim C3 witness: a stored abbreviated IPv6 route is found under a
fully-expanded query, and an IPv4 query matches exactly while ignoring
a simultaneous IPv6 query. -/
theorem findRoute_matching_witness :
    resourceAwsRouteFindRoute
        (Except.ok [some { Routes := [{ DestinationIpv6CidrBlock := some "2001:db8::1/128" }] }])
        "" "2001:0db8:0000:0000:0000:0000:0000:0001/128"
      = Except.ok (some { DestinationIpv6CidrBlock := some "2001:db8::1/128" }) ∧
    resourceAwsRouteFindRoute
        (Except.ok [some { Routes := [{ DestinationCidrBlock := some "10.0.0.0/16" }] }])
        "10.0.0.0/16" "2001:db8::/32"
      = resourceAwsRouteFindRoute
        (Except.ok [some { Routes := [{ DestinationCidrBlock := some "10.0.0.0/16" }] }])
        "10.0.0.0/16" "" :=
  ⟨((findRoute_matching { Routes := [{ DestinationIpv6CidrBlock := some "2001:db8::1/128" }] }
      [] "" "2001:0db8:0000:0000:0000:0000:0000:0001/128").2.1 rfl (by decide)).trans
    (show Except.ok (List.find? _ _) = _ from rfl),
   ((findRoute_matching { Routes := [{ DestinationCidrBlock := some "10.0.0.0/16" }] }
      [] "10.0.0.0/16" "2001:db8::/32").1 (by decide)).2⟩

/-- A string has positive length iff it is non-empty. -/
theorem strPos (s : String) : 0 < s.length ↔ s ≠ "" := by
  rw [Nat.pos_iff_ne_zero]
  constructor
  · intro h hs
    exact h (by rw [hs]; rfl)
  · intro h hl
    apply h
    cases s with
    | mk data =>
      cases data with
      | nil => rfl
      | cons c cs => simp [String.length] at hl

/-- The counting loop equals the pair-list scan. -/
theorem targetScan_eq_scanPairs (op : Op) (d : ResourceData) :
    targetScan op d = scanPairs (pairsOf op d) := by
  unfold targetScan scanPairs pairsOf
  rw [List.foldl_map]
  congr 1
  funext acc t
  simp [decide_eq_true_eq]

/-- The create pair list, flag by flag. -/
theorem pairsOf_create (d : ResourceData) :
    pairsOf Op.create d
      = lcOf (decide (0 < d.egress_only_gateway_id.length))
          (decide (0 < d.gateway_id.length)) (decide (0 < d.nat_gateway_id.length))
          (decide (0 < d.local_gateway_id.length)) (decide (0 < d.instance_id.length))
          (decide (0 < d.network_interface_id.length))
          (decide (0 < d.transit_gateway_id.length))
          (decide (0 < d.vpc_peering_connection_id.length)) := by
  simp [pairsOf, allowedTargets, lcOf, getField]

/-- The update pair list, flag by flag. -/
theorem pairsOf_update (d : ResourceData) :
    pairsOf Op.update d
      = luOf (decide (0 < d.egress_only_gateway_id.length))
          (decide (0 < d.gateway_id.length)) (decide (0 < d.nat_gateway_id.length))
          (decide (0 < d.local_gateway_id.length)) (decide (0 < d.instance_id.length))
          (decide (0 < d.network_interface_id.length))
          (decide (0 < d.transit_gateway_id.length))
          (decide (0 < d.vpc_peering_connection_id.length)) := by
  simp [pairsOf, allowedTargets, luOf, getField]

/-- The target count as a pair-list scan. -/
theorem numTargets_eq (op : Op) (d : ResourceData) :
    numTargets op d = (scanPairs (pairsOf op d)).1 := by
  rw [numTargets, targetScan_eq_scanPairs]

/-- The selected target as a pair-list scan. -/
theorem setTarget_eq (op : Op) (d : ResourceData) :
    setTarget op d = (scanPairs (pairsOf op d)).2 := by
  rw [setTarget, targetScan_eq_scanPairs]

/-- The selector core only reads whether `eniLen` is zero. -/
theorem selectTargetCore_eni (op : Op) (n : Nat) (t : String) (l : Nat) :
    selectTargetCore op n t l
      = selectTargetCore op n t (cond (decide (0 < l)) 1 0) := by
  by_cases h : l = 0
  · subst h; rfl
  · have hp : 0 < l := Nat.pos_of_ne_zero h
    unfold selectTargetCore
    cases op
    · rfl
    · rw [decide_eq_true hp]
      simp [h]

/-- The selector as the core applied to reified flags. -/
theorem selectTarget_eq_core (op : Op) (d : ResourceData) :
    selectTarget op d
      = selectTargetCore op (scanPairs (pairsOf op d)).1 (scanPairs (pairsOf op d)).2
          (cond (decide (0 < d.network_interface_id.length)) 1 0) := by
  rw [selectTarget, numTargets_eq, setTarget_eq,
    show getField d "network_interface_id" = d.network_interface_id from rfl]
  exact selectTargetCore_eni op _ _ _

/-- Looking a name up in the operation's pair list yields that field's
is-set flag. -/
theorem lookupPair_pairsOf (op : Op) (d : ResourceData) (x : String) :
    lookupPair (pairsOf op d) x = decide (0 < (getField d x).length) := by
  cases op <;>
  · by_cases hx1 : x = "egress_only_gateway_id"
    · subst hx1; rfl
    · by_cases hx2 : x = "gateway_id"
      · subst hx2; rfl
      · by_cases hx3 : x = "nat_gateway_id"
        · subst hx3; rfl
        · by_cases hx4 : x = "local_gateway_id"
          · subst hx4; rfl
          · by_cases hx5 : x = "instance_id"
            · subst hx5; rfl
            · by_cases hx6 : x = "network_interface_id"
              · subst hx6; rfl
              · by_cases hx7 : x = "transit_gateway_id"
                · subst hx7; rfl
                · by_cases hx8 : x = "vpc_peering_connection_id"
                  · subst hx8; rfl
                  · have e1 : (x == "egress_only_gateway_id") = false := beq_eq_false_iff_ne.mpr hx1
                    have e2 : (x == "gateway_id") = false := beq_eq_false_iff_ne.mpr hx2
                    have e3 : (x == "nat_gateway_id") = false := beq_eq_false_iff_ne.mpr hx3
                    have e4 : (x == "local_gateway_id") = false := beq_eq_false_iff_ne.mpr hx4
                    have e5 : (x == "instance_id") = false := beq_eq_false_iff_ne.mpr hx5
                    have e6 : (x == "network_interface_id") = false := beq_eq_false_iff_ne.mpr hx6
                    have e7 : (x == "transit_gateway_id") = false := beq_eq_false_iff_ne.mpr hx7
                    have e8 : (x == "vpc_peering_connection_id") = false := beq_eq_false_iff_ne.mpr hx8
                    simp [lookupPair, pairsOf, allowedTargets, List.find?, getField,
                      e1, e2, e3, e4, e5, e6, e7, e8, hx1, hx2, hx3, hx4, hx5, hx6, hx7, hx8]

/-- The update exception as a flag computation. -/
theorem exc_iff (d : ResourceData) :
    updateInstanceEniException d
      ↔ excBool (decide (0 < d.egress_only_gateway_id.length))
          (decide (0 < d.gateway_id.length)) (decide (0 < d.nat_gateway_id.length))
          (decide (0 < d.local_gateway_id.length)) (decide (0 < d.instance_id.length))
          (decide (0 < d.network_interface_id.length))
          (decide (0 < d.transit_gateway_id.length))
          (decide (0 < d.vpc_peering_connection_id.length)) = true := by
  simp only [updateInstanceEniException, excBool, Bool.and_eq_true, Bool.not_eq_true',
    decide_eq_true_eq, decide_eq_false_iff_not, Nat.pos_iff_ne_zero, not_not, ne_eq]
  tauto

/-- The selector core on every combination of is-set flags. -/
theorem selCore (b1 b2 b3 b4 b5 b6 b7 b8 : Bool) :
    ((scanPairs (lcOf b1 b2 b3 b4 b5 b6 b7 b8)).1 = 0 →
      selectTargetCore Op.create (scanPairs (lcOf b1 b2 b3 b4 b5 b6 b7 b8)).1
          (scanPairs (lcOf b1 b2 b3 b4 b5 b6 b7 b8)).2 (cond b6 1 0)
        = Except.error (TargetError.missingTarget (allowedTargets Op.create)) ∧
      selectTargetCore Op.update (scanPairs (luOf b1 b2 b3 b4 b5 b6 b7 b8)).1
          (scanPairs (luOf b1 b2 b3 b4 b5 b6 b7 b8)).2 (cond b6 1 0)
        = Except.error (TargetError.invalidTargetType "")) ∧
    ((scanPairs (lcOf b1 b2 b3 b4 b5 b6 b7 b8)).1 = 1 →
      selectTargetCore Op.create (scanPairs (lcOf b1 b2 b3 b4 b5 b6 b7 b8)).1
          (scanPairs (lcOf b1 b2 b3 b4 b5 b6 b7 b8)).2 (cond b6 1 0)
        = Except.ok (scanPairs (lcOf b1 b2 b3 b4 b5 b6 b7 b8)).2 ∧
      selectTargetCore Op.update (scanPairs (luOf b1 b2 b3 b4 b5 b6 b7 b8)).1
          (scanPairs (luOf b1 b2 b3 b4 b5 b6 b7 b8)).2 (cond b6 1 0)
        = Except.ok (scanPairs (luOf b1 b2 b3 b4 b5 b6 b7 b8)).2 ∧
      (scanPairs (luOf b1 b2 b3 b4 b5 b6 b7 b8)).2
        = (scanPairs (lcOf b1 b2 b3 b4 b5 b6 b7 b8)).2 ∧
      lookupPair (lcOf b1 b2 b3 b4 b5 b6 b7 b8)
          (scanPairs (lcOf b1 b2 b3 b4 b5 b6 b7 b8)).2 = true) ∧
    (2 ≤ (scanPairs (lcOf b1 b2 b3 b4 b5 b6 b7 b8)).1 →
      selectTargetCore Op.create (scanPairs (lcOf b1 b2 b3 b4 b5 b6 b7 b8)).1
          (scanPairs (lcOf b1 b2 b3 b4 b5 b6 b7 b8)).2 (cond b6 1 0)
        = Except.error TargetError.routeTargetValidationError) ∧
    (2 ≤ (scanPairs (luOf b1 b2 b3 b4 b5 b6 b7 b8)).1 →
      excBool b1 b2 b3 b4 b5 b6 b7 b8 = false →
      selectTargetCore Op.update (scanPairs (luOf b1 b2 b3 b4 b5 b6 b7 b8)).1
          (scanPairs (luOf b1 b2 b3 b4 b5 b6 b7 b8)).2 (cond b6 1 0)
        = Except.error TargetError.routeTargetValidationError) ∧
    (excBool b1 b2 b3 b4 b5 b6 b7 b8 = true →
      selectTargetCore Op.update (scanPairs (luOf b1 b2 b3 b4 b5 b6 b7 b8)).1
          (scanPairs (luOf b1 b2 b3 b4 b5 b6 b7 b8)).2 (cond b6 1 0)
        = Except.ok "instance_id") := by
  revert b1 b2 b3 b4 b5 b6 b7 b8
  decide

/-- Claim C1 counterexample: with no non-empty target field, update
does not fail with the missing-target error that lists the allowed
field names; it fails with the invalid-target-type error, whose message
carries only the empty `setTarget` and names no fields. -/
theorem targetSelector_update_missing_cex :
    numTargets Op.update {} = 0 ∧
    selectTarget Op.update {} = Except.error (TargetError.invalidTargetType "") ∧
    TargetError.invalidTargetType ""
      ≠ TargetError.missingTarget (allowedTargets Op.update) := by
  refine ⟨rfl, rfl, ?_⟩
  intro h
  exact TargetError.noConfusion h

/-- Claim C1 (amended): with no non-empty target field, create fails
with the missing-target error listing the allowed field names while
update fails with its invalid-target-type error, which names no
fields; with exactly one non-empty field, both operations succeed
returning that field; with two or more, both fail with
`routeTargetValidationError` — except that update succeeds with
`instance_id` selected when the only two non-empty fields are
`instance_id` and `network_interface_id`. -/
theorem targetSelector_mutual_exclusion (d : ResourceData) :
    (numTargets Op.create d = 0 →
      selectTarget Op.create d
          = Except.error (TargetError.missingTarget (allowedTargets Op.create)) ∧
      selectTarget Op.update d = Except.error (TargetError.invalidTargetType "")) ∧
    (numTargets Op.create d = 1 →
      selectTarget Op.create d = Except.ok (setTarget Op.create d) ∧
      selectTarget Op.update d = Except.ok (setTarget Op.update d) ∧
      setTarget Op.update d = setTarget Op.create d ∧
      0 < (getField d (setTarget Op.create d)).length) ∧
    (2 ≤ numTargets Op.create d →
      selectTarget Op.create d = Except.error TargetError.routeTargetValidationError) ∧
    (2 ≤ numTargets Op.update d → ¬ updateInstanceEniException d →
      selectTarget Op.update d = Except.error TargetError.routeTargetValidationError) ∧
    (updateInstanceEniException d →
      selectTarget Op.update d = Except.ok "instance_id") := by
  have hcore := selCore (decide (0 < d.egress_only_gateway_id.length))
    (decide (0 < d.gateway_id.length)) (decide (0 < d.nat_gateway_id.length))
    (decide (0 < d.local_gateway_id.length)) (decide (0 < d.instance_id.length))
    (decide (0 < d.network_interface_id.length))
    (decide (0 < d.transit_gateway_id.length))
    (decide (0 < d.vpc_peering_connection_id.length))
  have hlook := lookupPair_pairsOf Op.create d (setTarget Op.create d)
  simp only [numTargets_eq, setTarget_eq, selectTarget_eq_core, exc_iff,
    pairsOf_create, pairsOf_update] at hlook ⊢
  refine ⟨fun h0 => (hcore.1 h0), fun h1 => ?_, fun h2 => hcore.2.2.1 h2,
    fun h2 hexc => hcore.2.2.2.1 h2 (Bool.not_eq_true _ ▸ eq_false_of_ne_true hexc),
    fun hexc => hcore.2.2.2.2 hexc⟩
  obtain ⟨ha, hb, hc, hd⟩ := hcore.2.1 h1
  refine ⟨ha, hb, hc, ?_⟩
  rw [hlook] at hd
  exact of_decide_eq_true hd

/-- Claim C1 witness: a single gateway target is selected under create,
the instance-plus-interface pair is accepted under update with
`instance_id` selected, and two distinct targets are rejected. -/
theorem targetSelector_mutual_exclusion_witness :
    selectTarget Op.create { gateway_id := "igw-1" }
        = Except.ok (setTarget Op.create { gateway_id := "igw-1" }) ∧
    selectTarget Op.update { instance_id := "i-1", network_interface_id := "eni-1" }
        = Except.ok "instance_id" ∧
    selectTarget Op.create { gateway_id := "igw-1", nat_gateway_id := "nat-1" }
        = Except.error TargetError.routeTargetValidationError :=
  ⟨((targetSelector_mutual_exclusion { gateway_id := "igw-1" }).2.1 (by decide)).1,
   (targetSelector_mutual_exclusion
      { instance_id := "i-1", network_interface_id := "eni-1" }).2.2.2.2
     ⟨by decide, by decide, rfl, rfl, rfl, rfl, rfl, rfl⟩,
   (targetSelector_mutual_exclusion
      { gateway_id := "igw-1", nat_gateway_id := "nat-1" }).2.2.1 (by decide)⟩

/-- A successful selection returns exactly the scanned target, which is
one of the eight target field names. -/
theorem selectTargetCore_ok (op : Op) (n : Nat) (t : String) (l : Nat) (s : String)
    (h : selectTargetCore op n t l = Except.ok s) :
    s = t ∧
    (t = "egress_only_gateway_id" ∨ t = "gateway_id" ∨ t = "nat_gateway_id" ∨
     t = "local_gateway_id" ∨ t = "instance_id" ∨ t = "network_interface_id" ∨
     t = "transit_gateway_id" ∨ t = "vpc_peering_connection_id") := by
  unfold selectTargetCore at h
  cases op <;> (repeat' split at h) <;>
    first
      | exact Except.noConfusion h
      | (simp_all
         tauto)
      | simp_all

/-- Claim C6 counterexample: a record valid for both create and update
(IPv6 destination, gateway target) whose replace payload differs from
its create payload: create sends the IPv6 destination and omits the
IPv4 one, while update's replace payload drops the IPv6 destination
and unconditionally sends the (empty) IPv4 destination. -/
theorem update_payload_cex :
    selectTarget Op.create
        { route_table_id := "rtb-1", destination_ipv6_cidr_block := "2001:db8::/32",
          gateway_id := "igw-1" } = Except.ok "gateway_id" ∧
    selectTarget Op.update
        { route_table_id := "rtb-1", destination_ipv6_cidr_block := "2001:db8::/32",
          gateway_id := "igw-1" } = Except.ok "gateway_id" ∧
    replaceOptsFor
        { route_table_id := "rtb-1", destination_ipv6_cidr_block := "2001:db8::/32",
          gateway_id := "igw-1" } "gateway_id"
      ≠ createOptsFor
        { route_table_id := "rtb-1", destination_ipv6_cidr_block := "2001:db8::/32",
          gateway_id := "igw-1" } "gateway_id" ∧
    (createOptsFor
        { route_table_id := "rtb-1", destination_ipv6_cidr_block := "2001:db8::/32",
          gateway_id := "igw-1" } "gateway_id").DestinationIpv6CidrBlock
      = some "2001:db8::/32" ∧
    (replaceOptsFor
        { route_table_id := "rtb-1", destination_ipv6_cidr_block := "2001:db8::/32",
          gateway_id := "igw-1" } "gateway_id").DestinationIpv6CidrBlock = none ∧
    (replaceOptsFor
        { route_table_id := "rtb-1", destination_ipv6_cidr_block := "2001:db8::/32",
          gateway_id := "igw-1" } "gateway_id").DestinationCidrBlock = some "" := by
  refine ⟨by decide, by decide, ?_, rfl, rfl, rfl⟩
  intro h
  have := congrArg RouteInput.DestinationCidrBlock h
  simp [replaceOptsFor, createOptsFor, getOk] at this

/-- Claim C6 (amended): update performs target selection and then
exactly one replace call, whose payload is passed to the remote call
and whose result is returned verbatim with no retry; the replace
payload equals the create payload for the same record and target when
the target is egress-only-gateway, nat-gateway or local-gateway, or
when the IPv4 destination is non-empty and the IPv6 destination empty —
for the remaining targets with an IPv6 (or missing IPv4) destination
the payloads differ, update always sending the IPv4 destination field
and never the IPv6 one. -/
theorem update_replace_payload (d : ResourceData) (t : String)
    (replaceRoute : RouteInput → Option RemoteError)
    (hc : selectTarget Op.create d = Except.ok t)
    (hu : selectTarget Op.update d = Except.ok t) :
    resourceAwsRouteUpdate d replaceRoute
        = Except.ok (replaceRoute (replaceOptsFor d t)) ∧
    ((t = "egress_only_gateway_id" ∨ t = "nat_gateway_id" ∨ t = "local_gateway_id") →
      replaceOptsFor d t = createOptsFor d t) ∧
    (d.destination_cidr_block ≠ "" → d.destination_ipv6_cidr_block = "" →
      replaceOptsFor d t = createOptsFor d t) := by
  refine ⟨?_, ?_, ?_⟩
  · unfold resourceAwsRouteUpdate
    rw [hu]
  · rintro (h | h | h) <;> subst h <;> rfl
  · intro hv4 hv6
    obtain ⟨hts, hcases⟩ := selectTargetCore_ok Op.create (numTargets Op.create d)
      (setTarget Op.create d) (getField d "network_interface_id").length t hc
    rw [← hts] at hcases
    have hg4 : getOk d.destination_cidr_block = some d.destination_cidr_block := by
      simp [getOk, hv4]
    have hg6 : getOk d.destination_ipv6_cidr_block = none := by
      simp [getOk, hv6]
    rcases hcases with h | h | h | h | h | h | h | h <;> subst h <;>
      simp [replaceOptsFor, createOptsFor, hg4, hg6]

/-- Claim C6 witness: an IPv4 gateway route where the replace payload
equals the create payload and the replace call's nil result is
surfaced. -/
theorem update_replace_payload_witness :
    resourceAwsRouteUpdate
        { route_table_id := "rtb-1", destination_cidr_block := "10.0.0.0/16",
          gateway_id := "igw-1" } (fun _ => none)
      = Except.ok none ∧
    replaceOptsFor
        { route_table_id := "rtb-1", destination_cidr_block := "10.0.0.0/16",
          gateway_id := "igw-1" } "gateway_id"
      = createOptsFor
        { route_table_id := "rtb-1", destination_cidr_block := "10.0.0.0/16",
          gateway_id := "igw-1" } "gateway_id" :=
  ⟨(update_replace_payload
      { route_table_id := "rtb-1", destination_cidr_block := "10.0.0.0/16",
        gateway_id := "igw-1" } "gateway_id" (fun _ => none) (by decide) (by decide)).1,
   (update_replace_payload
      { route_table_id := "rtb-1", destination_cidr_block := "10.0.0.0/16",
        gateway_id := "igw-1" } "gateway_id" (fun _ => none) (by decide) (by decide)).2.2
     (by decide) rfl⟩

/-- If the first `k` attempts are retryable and attempt `k` succeeds
within the budget, the retry loop returns that success. -/
theorem retryGo_reaches {ε α : Type} (step : Nat → Att ε α) (a : α) :
    ∀ (k fuel i0 : Nat) (last : Option ε), k < fuel →
      (∀ j, j < k → ∃ e, step (i0 + j) = Att.retryable e) →
      step (i0 + k) = Att.ok a →
      (resourceRetryGo step fuel i0 last).1 = RetryRes.ok a := by
  intro k
  induction k with
  | zero =>
    intro fuel i0 last hk _hr hs
    cases fuel with
    | zero => omega
    | succ m =>
      rw [Nat.add_zero] at hs
      unfold resourceRetryGo
      rw [hs]
  | succ k ih =>
    intro fuel i0 last hk hr hs
    cases fuel with
    | zero => omega
    | succ m =>
      obtain ⟨e, he⟩ := hr 0 (Nat.succ_pos k)
      rw [Nat.add_zero] at he
      unfold resourceRetryGo
      rw [he]
      apply ih m (i0 + 1) (some e) (by omega)
      · intro j hj
        rw [show i0 + 1 + j = i0 + (j + 1) by omega]
        exact hr (j + 1) (by omega)
      · rw [show i0 + 1 + k = i0 + (k + 1) by omega]
        exact hs

/-- If every attempt within the budget is retryable, the retry loop
times out after exactly the budgeted number of attempts. -/
theorem retryGo_timeout {ε α : Type} (step : Nat → Att ε α) :
    ∀ (fuel i0 : Nat) (last : Option ε),
      (∀ j, j < fuel → ∃ e, step (i0 + j) = Att.retryable e) →
      ∃ l2, resourceRetryGo step fuel i0 last = (RetryRes.timeout l2, i0 + fuel) := by
  intro fuel
  induction fuel with
  | zero =>
    intro i0 last _h
    exact ⟨last, by simp [resourceRetryGo]⟩
  | succ m ih =>
    intro i0 last h
    obtain ⟨e, he⟩ := h 0 (Nat.succ_pos m)
    rw [Nat.add_zero] at he
    obtain ⟨l2, hl⟩ := ih (i0 + 1) (some e) (by
      intro j hj
      rw [show i0 + 1 + j = i0 + (j + 1) by omega]
      exact h (j + 1) (by omega))
    refine ⟨l2, ?_⟩
    unfold resourceRetryGo
    rw [he]
    show resourceRetryGo step m (i0 + 1) (some e) = (RetryRes.timeout l2, i0 + (m + 1))
    rw [hl, show i0 + 1 + m = i0 + (m + 1) by omega]

/-- A timed-out retry loop performed exactly its budget of attempts. -/
theorem retryGo_timeout_count {ε α : Type} (step : Nat → Att ε α) :
    ∀ (fuel i0 : Nat) (last l : Option ε),
      (resourceRetryGo step fuel i0 last).1 = RetryRes.timeout l →
      (resourceRetryGo step fuel i0 last).2 = i0 + fuel := by
  intro fuel
  induction fuel with
  | zero =>
    intro i0 last l _h
    simp [resourceRetryGo]
  | succ m ih =>
    intro i0 last l h
    unfold resourceRetryGo at h ⊢
    cases hs : step i0 with
    | ok a =>
      rw [hs] at h
      exact RetryRes.noConfusion (show RetryRes.ok a = RetryRes.timeout l from h)
    | fatal e =>
      rw [hs] at h
      exact RetryRes.noConfusion (show RetryRes.fatal e = RetryRes.timeout l from h)
    | retryable e =>
      rw [hs] at h
      have h' : (resourceRetryGo step m (i0 + 1) (some e)).1 = RetryRes.timeout l := h
      show (resourceRetryGo step m (i0 + 1) (some e)).2 = i0 + (m + 1)
      rw [ih (i0 + 1) (some e) l h']
      omega

/-- Claim C4: delete is idempotent — a delete attempt that reports the
route as already not found yields success, both inside the retry loop
(after any number of retryable rejections) and on the single direct
attempt made after the budget elapses. -/
theorem delete_idempotent (budget : Nat) (deleteRoute : Nat → Option RemoteError)
    (i : Nat) :
    (i < budget →
      (∀ j, j < i → deleteRoute j = some (RemoteError.aws "InvalidParameterException")) →
      deleteRoute i = some (RemoteError.aws "InvalidRoute.NotFound") →
      resourceAwsRouteDelete budget deleteRoute = Except.ok ()) ∧
    ((∀ j, j < budget → deleteRoute j = some (RemoteError.aws "InvalidParameterException")) →
      deleteRoute budget = some (RemoteError.aws "InvalidRoute.NotFound") →
      resourceAwsRouteDelete budget deleteRoute = Except.ok ()) := by
  constructor
  · intro hi hj hnf
    have hok : (resourceRetry (fun k => deleteClassify (deleteRoute k)) budget).1
        = RetryRes.ok () := by
      apply retryGo_reaches (fun k => deleteClassify (deleteRoute k)) () i budget 0 none hi
      · intro j hjlt
        refine ⟨RemoteError.aws "InvalidParameterException", ?_⟩
        show deleteClassify (deleteRoute (0 + j)) = _
        rw [Nat.zero_add, hj j hjlt]
        rfl
      · show deleteClassify (deleteRoute (0 + i)) = _
        rw [Nat.zero_add, hnf]
        rfl
    simp only [resourceAwsRouteDelete]
    rw [hok]
    rfl
  · intro hall hnf
    obtain ⟨l2, hto⟩ := retryGo_timeout (fun k => deleteClassify (deleteRoute k))
      budget 0 none (by
        intro j hjlt
        refine ⟨RemoteError.aws "InvalidParameterException", ?_⟩
        show deleteClassify (deleteRoute (0 + j)) = _
        rw [Nat.zero_add, hall j hjlt]
        rfl)
    simp only [resourceAwsRouteDelete, resourceRetry] at hto ⊢
    rw [hto]
    simp [hnf, isAWSErr]

/-- Claim C4 witness: a first-attempt not-found and a post-timeout
not-found both return success. -/
theorem delete_idempotent_witness :
    resourceAwsRouteDelete 1 (fun _ => some (RemoteError.aws "InvalidRoute.NotFound"))
      = Except.ok () ∧
    resourceAwsRouteDelete 1
        (fun k => if k = 0 then some (RemoteError.aws "InvalidParameterException")
                  else some (RemoteError.aws "InvalidRoute.NotFound"))
      = Except.ok () :=
  ⟨(delete_idempotent 1 (fun _ => some (RemoteError.aws "InvalidRoute.NotFound")) 0).1
     (by decide) (fun j hj => absurd hj (by omega)) rfl,
   (delete_idempotent 1
      (fun k => if k = 0 then some (RemoteError.aws "InvalidParameterException")
                else some (RemoteError.aws "InvalidRoute.NotFound")) 0).2
     (fun j hj => by interval_cases j <;> rfl) rfl⟩

/-- Claim C7: whenever the retry phase of a bounded-retry execution
times out (no attempt succeeded or failed fatally within the budget),
exactly one additional unconditional attempt is performed — the total
call count is the budget plus one — and that final attempt's raw result
alone decides the surfaced outcome; instantiated for the generic
two-phase executor and for the delete call, the create call, and the
create confirmation lookup. -/
theorem retry_final_attempt {β ε α : Type} (call : Nat → β) (classify : β → Att ε α)
    (budget : Nat) (last : Option ε) (dcall ccall : Nat → Option RemoteError)
    (fcall : Nat → Except RemoteError (Option EC2Route))
    (lastD lastC lastF : Option RemoteError) :
    ((resourceRetry (fun i => classify (call i)) budget).1 = RetryRes.timeout last →
      retryWithFinal call classify budget = (Sum.inr (call budget), budget + 1)) ∧
    ((resourceRetry (fun i => deleteClassify (dcall i)) budget).1 = RetryRes.timeout lastD →
      resourceAwsRouteDelete budget dcall
        = (if isAWSErr (dcall budget) "InvalidRoute.NotFound" then Except.ok ()
           else
             match dcall budget with
             | none => Except.ok ()
             | some e => Except.error e)) ∧
    ((resourceRetry (fun i => createClassify (ccall i)) budget).1 = RetryRes.timeout lastC →
      resourceAwsRouteCreateCall budget ccall
        = (match ccall budget with
           | none => Except.ok ()
           | some e => Except.error e)) ∧
    ((resourceRetry (fun i => confirmClassify (fcall i)) budget).1 = RetryRes.timeout lastF →
      resourceAwsRouteConfirm budget fcall
        = (match fcall budget with
           | Except.error e => Except.error e
           | Except.ok none => Except.error (RemoteError.other "Unable to find matching route")
           | Except.ok (some route) => Except.ok route)) := by
  refine ⟨?_, ?_, ?_, ?_⟩
  · intro h
    have hc : (resourceRetry (fun i => classify (call i)) budget).2 = budget := by
      have := retryGo_timeout_count (fun i => classify (call i)) budget 0 none last h
      simpa using this
    simp only [retryWithFinal]
    rw [h, hc]
  · intro h
    have hc : (resourceRetry (fun i => deleteClassify (dcall i)) budget).2 = budget := by
      have := retryGo_timeout_count (fun i => deleteClassify (dcall i)) budget 0 none lastD h
      simpa using this
    simp only [resourceAwsRouteDelete]
    rw [h, hc]
  · intro h
    have hc : (resourceRetry (fun i => createClassify (ccall i)) budget).2 = budget := by
      have := retryGo_timeout_count (fun i => createClassify (ccall i)) budget 0 none lastC h
      simpa using this
    simp only [resourceAwsRouteCreateCall]
    rw [h, hc]
  · intro h
    have hc : (resourceRetry (fun i => confirmClassify (fcall i)) budget).2 = budget := by
      have := retryGo_timeout_count (fun i => confirmClassify (fcall i)) budget 0 none lastF h
      simpa using this
    simp only [resourceAwsRouteConfirm]
    rw [h, hc]

/-- Claim C7 witness: with a budget of two attempts that keep being
rejected as retryable, each executor performs the extra direct third
call and surfaces exactly its result. -/
theorem retry_final_attempt_witness :
    retryWithFinal (fun _ => (some (RemoteError.aws "InvalidParameterException") : Option RemoteError))
        deleteClassify 2
      = (Sum.inr (some (RemoteError.aws "InvalidParameterException")), 3) ∧
    resourceAwsRouteDelete 2 (fun _ => some (RemoteError.aws "InvalidParameterException"))
      = Except.error (RemoteError.aws "InvalidParameterException") ∧
    resourceAwsRouteCreateCall 2 (fun _ => some (RemoteError.aws "InvalidParameterException"))
      = Except.error (RemoteError.aws "InvalidParameterException") ∧
    resourceAwsRouteConfirm 2 (fun _ => Except.ok none)
      = Except.error (RemoteError.other "Unable to find matching route") := by
  have h := retry_final_attempt
    (fun _ => (some (RemoteError.aws "InvalidParameterException") : Option RemoteError))
    deleteClassify 2 (some (RemoteError.aws "InvalidParameterException"))
    (fun _ => some (RemoteError.aws "InvalidParameterException"))
    (fun _ => some (RemoteError.aws "InvalidParameterException"))
    (fun _ => Except.ok none)
    (some (RemoteError.aws "InvalidParameterException"))
    (some (RemoteError.aws "InvalidParameterException"))
    (some (RemoteError.other "Route not found"))
  refine ⟨h.1 (by decide), (h.2.1 (by decide)).trans (by decide),
    (h.2.2.1 (by decide)).trans (by decide), (h.2.2.2 (by decide)).trans (by decide)⟩

/-- Claim C2: the route identity is a pure function of the table id and
the destinations only (the target never participates), a non-empty IPv6
destination is always the one hashed regardless of the IPv4 value, and
the result has the form `r-<table><32-bit hash>`. -/
theorem routeID_deterministic (tid : String) (r r' : EC2Route) (s6 : String) :
    (r.DestinationIpv6CidrBlock = r'.DestinationIpv6CidrBlock →
      r.DestinationCidrBlock = r'.DestinationCidrBlock →
      resourceAwsRouteID tid r = resourceAwsRouteID tid r') ∧
    (s6 ≠ "" → r.DestinationIpv6CidrBlock = some s6 →
      resourceAwsRouteID tid r = some ("r-" ++ tid ++ toString (hashcodeString s6))) ∧
    hashcodeString s6 < 4294967296 := by
  refine ⟨?_, ?_, ?_⟩
  · intro h6 h4
    unfold resourceAwsRouteID
    rw [h6, h4]
  · intro hs h6
    unfold resourceAwsRouteID
    rw [h6]
    simp [Option.getD, hs]
  · exact fnv_fold_lt (utf8Bytes s6) 2166136261 (by norm_num)

/-- Claim C2 witness: two routes sharing destinations but with
different targets get the same identity, and it is the IPv6 hash even
though an IPv4 destination is present. -/
theorem routeID_deterministic_witness :
    resourceAwsRouteID "rtb-1"
        { DestinationCidrBlock := some "10.0.0.0/24",
          DestinationIpv6CidrBlock := some "2001:db8::/32",
          GatewayId := some "igw-1" }
      = resourceAwsRouteID "rtb-1"
        { DestinationCidrBlock := some "10.0.0.0/24",
          DestinationIpv6CidrBlock := some "2001:db8::/32",
          NatGatewayId := some "nat-1" } ∧
    resourceAwsRouteID "rtb-1"
        { DestinationCidrBlock := some "10.0.0.0/24",
          DestinationIpv6CidrBlock := some "2001:db8::/32",
          GatewayId := some "igw-1" }
      = some ("r-" ++ "rtb-1" ++ toString (hashcodeString "2001:db8::/32")) ∧
    hashcodeString "2001:db8::/32" < 4294967296 :=
  ⟨(routeID_deterministic "rtb-1"
      { DestinationCidrBlock := some "10.0.0.0/24",
        DestinationIpv6CidrBlock := some "2001:db8::/32",
        GatewayId := some "igw-1" }
      { DestinationCidrBlock := some "10.0.0.0/24",
        DestinationIpv6CidrBlock := some "2001:db8::/32",
        NatGatewayId := some "nat-1" }
      "2001:db8::/32").1 rfl rfl,
   (routeID_deterministic "rtb-1"
      { DestinationCidrBlock := some "10.0.0.0/24",
        DestinationIpv6CidrBlock := some "2001:db8::/32",
        GatewayId := some "igw-1" }
      { DestinationCidrBlock := some "10.0.0.0/24",
        DestinationIpv6CidrBlock := some "2001:db8::/32",
        NatGatewayId := some "nat-1" }
      "2001:db8::/32").2.1 (by decide) rfl,
   (routeID_deterministic "rtb-1"
      { DestinationCidrBlock := some "10.0.0.0/24",
        DestinationIpv6CidrBlock := some "2001:db8::/32",
        GatewayId := some "igw-1" }
      { DestinationCidrBlock := some "10.0.0.0/24",
        DestinationIpv6CidrBlock := some "2001:db8::/32",
        NatGatewayId := some "nat-1" }
      "2001:db8::/32").2.2⟩

/-- Claim C8 counterexample: the Identity Generator has no
`NoDestinationError` branch. With both destinations present but empty
it succeeds (hashing the empty string), and with a nil IPv4 destination
and no IPv6 destination it dereferences a nil pointer (modelled as
`none`), i.e. it crashes rather than failing with an error. -/
theorem routeID_no_destination_cex :
    (resourceAwsRouteID "rtb-1"
        { DestinationCidrBlock := some "", DestinationIpv6CidrBlock := some "" }).isSome
      = true ∧
    resourceAwsRouteID "rtb-1" {} = none := by
  exact ⟨rfl, rfl⟩

/-- Claim C8 (amended): when the IPv6 destination is nil or empty, the
Identity Generator unconditionally dereferences the IPv4 destination:
it returns the IPv4-hash identity whenever that pointer is non-nil
(even for an empty string), and crashes (nil dereference, modelled as
`none`) when it is nil; no `NoDestinationError` exists. -/
theorem routeID_empty_destination (tid : String) (r : EC2Route) (s : String) :
    (r.DestinationIpv6CidrBlock.getD "" = "" → r.DestinationCidrBlock = none →
      resourceAwsRouteID tid r = none) ∧
    (r.DestinationIpv6CidrBlock.getD "" = "" → r.DestinationCidrBlock = some s →
      resourceAwsRouteID tid r = some ("r-" ++ tid ++ toString (hashcodeString s))) := by
  constructor <;>
    (intro h6 h4; unfold resourceAwsRouteID; rw [h4]; simp [h6])

/-- Claim C8 witness: the generator evaluated at both-empty and at
nil-IPv4 inputs. -/
theorem routeID_empty_destination_witness :
    resourceAwsRouteID "rtb-1" {} = none ∧
    resourceAwsRouteID "rtb-1"
        { DestinationCidrBlock := some "", DestinationIpv6CidrBlock := some "" }
      = some ("r-" ++ "rtb-1" ++ toString (hashcodeString "")) :=
  ⟨(routeID_empty_destination "rtb-1" {} "").1 rfl rfl,
   (routeID_empty_destination "rtb-1"
      { DestinationCidrBlock := some "", DestinationIpv6CidrBlock := some "" } "").2 rfl rfl⟩
